import Mathlib

/-!
Shallow embedding of the `HybridPGMLIPP` composite index
(`src/competitors/hybrid_pgm_lipp.h`) of the COS568-LI-SP25 repository.

The composite couples a dynamic PGM index (`dpgm_`, the spec's DPI) with a
LIPP tree (`lipp_`, the spec's LIT).  Both underlying structures are external
collaborators; their headers are not part of the sources under verification,
so they are modelled from the spec (§3, §4.5) as ordered finite maps,
represented here as association lists.  Machine timestamps
(`std::chrono::steady_clock ... .count()`) are modelled as natural numbers of
nanoseconds, and unsigned 64-bit subtraction is modelled explicitly modulo
2^64.  `double` threshold arithmetic is modelled with exact rationals.

Each public or private member function of the class is translated to a pure
Lean function on an explicit state record.  Thread spawns
(`StartAsyncMigration`, the background worker loop) are modelled by making
`MigrateHotKeys`, `update_hot_keys` and `adjust_migration_threshold`
independent transitions that may be interleaved with the foreground
operations (the `Op` type and `runOps`).
-/

namespace HybridPGMLIPP

/-- `util::NOT_FOUND` from `util.h`: `std::numeric_limits<size_t>::max()`. -/
def NOT_FOUND : Nat := 2 ^ 64 - 1

/-- Width of a 64-bit machine word. -/
def W64 : Nat := 2 ^ 64

/-- Unsigned 64-bit subtraction `a - b` as C++ computes it
(`size_t` wraparound), for `a, b < 2^64`. -/
def usub (a b : Nat) : Nat := (a + W64 - b) % W64

/-- Modelled from the spec (§3, §4.5): the missing adapter headers
(`dynamic_pgm_index.h`, `lipp.h`) expose `lookup(k) → V | NotFound`.
Both maps are association lists; lookup returns the sentinel when absent. -/
def alookup : List (Nat × Nat) → Nat → Nat
  | [], _ => NOT_FOUND
  | (k0, v0) :: rest, k => if k0 = k then v0 else alookup rest k

/-- Modelled from the spec (§4.5): adapter `insert(k,v)`, an upsert on the
ordered map. -/
def aupsert (m : List (Nat × Nat)) (k v : Nat) : List (Nat × Nat) :=
  match m with
  | [] => [(k, v)]
  | (k0, v0) :: rest => if k0 = k then (k, v) :: rest else (k0, v0) :: aupsert rest k v

/-- Modelled from the spec (§4.5): adapter `range(lo,hi) → u64`, the sum of
the values of the keys in `[lo, hi]`. -/
def arange (m : List (Nat × Nat)) (lo hi : Nat) : Nat :=
  (m.filter (fun p => decide (lo ≤ p.1) && decide (p.1 ≤ hi))).foldl
    (fun acc p => acc + p.2) 0

/-- Per-key record `HybridPGMLIPP::KeyStats` (all fields default to zero /
false, as in the C++ member initializers). -/
structure KeyStats where
  access_count : Nat := 0
  last_access_time : Nat := 0
  is_hot : Bool := false
  consecutive_accesses : Nat := 0
  total_accesses : Nat := 0
  last_migration_time : Nat := 0
deriving Repr, DecidableEq

instance : Inhabited KeyStats := ⟨{}⟩

/-- `key_stats_[k]` read side: the stored record, or a default-constructed
one when absent (`std::unordered_map::operator[]` semantics). -/
def findStats : List (Nat × KeyStats) → Nat → KeyStats
  | [], _ => {}
  | (k0, s0) :: rest, k => if k0 = k then s0 else findStats rest k

/-- `key_stats_[k] = s` write side: upsert of the record for `k`. -/
def setStats : List (Nat × KeyStats) → Nat → KeyStats → List (Nat × KeyStats)
  | [], k, s => [(k, s)]
  | (k0, s0) :: rest, k, s =>
      if k0 = k then (k, s) :: rest else (k0, s0) :: setStats rest k s

/-- `std::unordered_set::insert` on a list used as a set. -/
def setInsert (s : List Nat) (k : Nat) : List Nat :=
  if s.contains k then s else s ++ [k]

/-- `hot_keys_.insert(migrated_keys.begin(), migrated_keys.end())`. -/
def setInsertAll (s : List Nat) (ks : List Nat) : List Nat :=
  ks.foldl setInsert s

/-- One step of sorting by ascending key (`std::sort` with the comparator
`a.key < b.key` of the source; the order of the result is ascending). -/
def insertByKey (p : Nat × Nat) : List (Nat × Nat) → List (Nat × Nat)
  | [] => [p]
  | q :: rest => if p.1 ≤ q.1 then p :: q :: rest else q :: insertByKey p rest

/-- Sort a key-value batch by ascending key. -/
def sortByKey (l : List (Nat × Nat)) : List (Nat × Nat) :=
  l.foldr insertByKey []

/-- The state of a `HybridPGMLIPP<KeyType, SearchClass, pgm_error>` object.
`dpgm` and `lipp` stand for the two adapter-owned maps; the remaining fields
are the members of the class that the modelled operations read or write. -/
structure HybridState where
  dpgm : List (Nat × Nat)
  lipp : List (Nat × Nat)
  key_stats : List (Nat × KeyStats)
  key_access_count : List (Nat × Nat)
  migration_queue : List Nat
  hot_keys : List Nat
  inserts : Nat
  lookups : Nat
  migrations : Nat
  migration_threshold : ℚ
  adaptive_threshold : Bool
deriving Repr, DecidableEq

/-- The constructor `HybridPGMLIPP(const std::vector<int>& params)`:
`migration_threshold_` starts at `0.05`, is overwritten with
`params[0] / 100.0` when `params` is non-empty, and `adaptive_threshold_`
(default `true`) is overwritten with `params[1] != 0` when present. -/
def initState (params : List Int) : HybridState :=
  let θ : ℚ :=
    match params with
    | [] => 5 / 100
    | p :: _ => (p : ℚ) / 100
  let adaptive : Bool :=
    match params with
    | _ :: a :: _ => a != 0
    | _ => true
  { dpgm := [], lipp := [], key_stats := [], key_access_count := [],
    migration_queue := [], hot_keys := [], inserts := 0, lookups := 0,
    migrations := 0, migration_threshold := θ, adaptive_threshold := adaptive }

/-- `HybridPGMLIPP::Build`: load all of `data` into the DPGM, then pre-warm
the LIPP with a contiguous sample of at most 100000 entries taken from the
middle of `data`, sorted by key (LIPP bulk build; modelled from the spec §3
as replacing the LIPP's contents). -/
def Build (st : HybridState) (data : List (Nat × Nat)) : HybridState :=
  let st1 := { st with dpgm := data }
  if data.length = 0 then st1
  else
    let sample_size := min data.length 100000
    let start_idx := data.length / 2 - sample_size / 2
    let sample := (data.drop start_idx).take sample_size
    { st1 with lipp := sortByKey sample }

/-- The detector block of `HybridPGMLIPP::EqualityLookup` that runs when the
key was found in the DPGM: bump `consecutive_accesses` when the previous
access is within the 50 ms window, else reset it to 1; then increment
`access_count` and `total_accesses` and stamp `last_access_time`. -/
def updateStatsOnAccess (s0 : KeyStats) (now : Nat) : KeyStats :=
  let s1 :=
    if usub now s0.last_access_time < 50000000 then
      { s0 with consecutive_accesses := s0.consecutive_accesses + 1 }
    else
      { s0 with consecutive_accesses := 1 }
  { s1 with access_count := s1.access_count + 1,
            total_accesses := s1.total_accesses + 1,
            last_access_time := now }

/-- The migration decision of `HybridPGMLIPP::EqualityLookup`:
`!stats.is_hot && (stats.consecutive_accesses >= 2 ||
 (stats.total_accesses >= 3 && now - stats.last_migration_time > 1000000000))`,
evaluated on the already-updated stats record. -/
def hotCondition (s : KeyStats) (now : Nat) : Bool :=
  !s.is_hot && (decide (2 ≤ s.consecutive_accesses) ||
    (decide (3 ≤ s.total_accesses) &&
     decide (1000000000 < usub now s.last_migration_time)))

/-- `HybridPGMLIPP::EqualityLookup`: consult the LIPP first; on a LIPP hit
count the lookup and return.  Otherwise count the lookup, consult the DPGM
and, on a DPGM hit, run the detector: update `key_stats_[k]`, and if the key
becomes hot mark it, stamp `last_migration_time` and append it to
`migration_queue_` unless already present.  (The conditional
`StartAsyncMigration` spawn is a detached thread; its effect is the separate
`MigrateHotKeys` transition.)  Returns the result and the new state. -/
def EqualityLookup (st : HybridState) (k now : Nat) : Nat × HybridState :=
  let lr := alookup st.lipp k
  if lr ≠ NOT_FOUND then
    (lr, { st with lookups := st.lookups + 1 })
  else
    let dr := alookup st.dpgm k
    if dr ≠ NOT_FOUND then
      let s2 := updateStatsOnAccess (findStats st.key_stats k) now
      if hotCondition s2 now then
        let s3 := { s2 with is_hot := true, last_migration_time := now }
        let q :=
          if st.migration_queue.contains k then st.migration_queue
          else st.migration_queue ++ [k]
        (dr, { st with lookups := st.lookups + 1,
                       key_stats := setStats st.key_stats k s3,
                       migration_queue := q })
      else
        (dr, { st with lookups := st.lookups + 1,
                       key_stats := setStats st.key_stats k s2 })
    else
      (dr, { st with lookups := st.lookups + 1 })

/-- `HybridPGMLIPP::Insert`: when `key_stats_` holds a record for the key and
it is marked hot, insert into the LIPP; otherwise insert into the DPGM.
Either path increments `workload_stats_.inserts`.  (The periodic
`should_flush` check only spawns the migration thread, modelled as the
separate `MigrateHotKeys` transition.) -/
def Insert (st : HybridState) (k v : Nat) : HybridState :=
  if (findStats st.key_stats k).is_hot = true then
    { st with lipp := aupsert st.lipp k v, inserts := st.inserts + 1 }
  else
    { st with dpgm := aupsert st.dpgm k v, inserts := st.inserts + 1 }

/-- `HybridPGMLIPP::RangeQuery`: the sum of the LIPP range result and the
DPGM range result, with no deduplication. -/
def RangeQuery (st : HybridState) (lo hi : Nat) : Nat :=
  arange st.lipp lo hi + arange st.dpgm lo hi

/-- `HybridPGMLIPP::size`: `dpgm_.size() + lipp_.size()`. -/
def size (st : HybridState) : Nat :=
  st.dpgm.length + st.lipp.length

/-- `HybridPGMLIPP::applicable`.  The search kernel is a template parameter
of the class; it is exposed here as the extra first argument `searchIsAVX`
so that statements can quantify over it.  The body is the source's
`return unique && !multithread;`, which reads neither the kernel nor the
other arguments. -/
def applicable (searchIsAVX : Bool) (unique range_query insert multithread : Bool)
    (ops_filename : String) : Bool :=
  unique && !multithread

/-- `HybridPGMLIPP::update_hot_keys` (run every ≈100 ms by the background
worker): clear `key_access_count_`, clear `hot_keys_`, and insert every key
currently in `migration_queue_` into `hot_keys_`. -/
def update_hot_keys (st : HybridState) : HybridState :=
  { st with key_access_count := [],
            hot_keys := setInsertAll [] st.migration_queue }

/-- The LOOKUP pass of `HybridPGMLIPP::MigrateHotKeys`: for each queued key,
fetch its value from the DPGM; keys the DPGM does not hold are dropped.
Returns the batch of key-value pairs and the set of migrated keys. -/
def collectBatch (dpgm : List (Nat × Nat)) : List Nat → List (Nat × Nat) × List Nat
  | [] => ([], [])
  | k :: rest =>
      let pr := collectBatch dpgm rest
      let v := alookup dpgm k
      if v ≠ NOT_FOUND then ((k, v) :: pr.1, setInsert pr.2 k) else pr

/-- `HybridPGMLIPP::MigrateHotKeys`: if the queue is empty, return; else
snapshot the queue, look every queued key up in the DPGM, clear the queue,
and when the batch is non-empty sort it by key, bulk-load it into the LIPP
(LIPP bulk build; modelled from the spec §3 as replacing the LIPP's
contents) and insert the migrated keys into `hot_keys_`.  Nothing is ever
removed from the DPGM. -/
def MigrateHotKeys (st : HybridState) : HybridState :=
  if st.migration_queue.isEmpty then st
  else
    let pr := collectBatch st.dpgm st.migration_queue
    let st1 := { st with migration_queue := [] }
    if pr.1.isEmpty then st1
    else
      { st1 with lipp := sortByKey pr.1,
                 hot_keys := setInsertAll st1.hot_keys pr.2 }

/-- `HybridPGMLIPP::adjust_migration_threshold` (one controller tick, `now`
being the tick's timestamp): return unchanged when not adaptive or when no
operation was recorded; otherwise move the threshold according to the
insert ratio, age out key stats untouched for more than 250 ms, and reset
the workload counters. -/
def adjust_migration_threshold (st : HybridState) (now : Nat) : HybridState :=
  if st.adaptive_threshold = false then st
  else if st.inserts + st.lookups = 0 then st
  else
    let r : ℚ := (st.inserts : ℚ) / ((st.inserts + st.lookups : Nat) : ℚ)
    let θ := st.migration_threshold
    let θ1 :=
      if 7 / 10 < r then min (1 / 10) (θ * (102 / 100))
      else if r < 3 / 10 then max (5 / 1000) (θ * (98 / 100))
      else max (1 / 100) (θ * (99 / 100))
    let ks := st.key_stats.filter
      (fun p => !decide (250000000 < usub now p.2.last_access_time))
    { st with migration_threshold := θ1, key_stats := ks,
              inserts := 0, lookups := 0, migrations := 0 }

/-- One observable transition of the composite: a foreground operation, or
one of the asynchronous worker steps. -/
inductive Op where
  | lookup (k now : Nat)
  | ins (k v : Nat)
  | build (data : List (Nat × Nat))
  | migrate
  | updateHot
  | tick (now : Nat)
deriving Repr

/-- Apply one transition. -/
def applyOp (st : HybridState) : Op → HybridState
  | .lookup k now => (EqualityLookup st k now).2
  | .ins k v => Insert st k v
  | .build data => Build st data
  | .migrate => MigrateHotKeys st
  | .updateHot => update_hot_keys st
  | .tick now => adjust_migration_threshold st now

/-- Run a sequence of transitions from a state. -/
def runOps (st : HybridState) (ops : List Op) : HybridState :=
  ops.foldl applyOp st

/-- Written from the spec's words (§4.1 RangeQuery), for comparison with the
code's `RangeQuery`: query the LIT, then query the DPI and add values only
for keys not already present in the LIT. -/
def specRangeQuery (st : HybridState) (lo hi : Nat) : Nat :=
  arange st.lipp lo hi +
    (st.dpgm.filter (fun p => decide (lo ≤ p.1) && decide (p.1 ≤ hi) &&
        !(st.lipp.lookup p.1).isSome)).foldl (fun acc p => acc + p.2) 0

/-- Written from the spec's words (§4.2, claim C5), for comparison with the
code's detector: the updated `consecutive_accesses` (incremented inside the
50 ms window, else reset to 1) and the hot verdict for a not-yet-hot key
(`consecutive_accesses ≥ 2`, or `access_count ≥ 3` with the 1 s migration
cooldown elapsed — amended to a strict inequality on the cooldown). -/
def specDetector (s0 : KeyStats) (now : Nat) : Nat × Bool :=
  let cons1 := if usub now s0.last_access_time < 50000000
               then s0.consecutive_accesses + 1 else 1
  (cons1, !s0.is_hot && (decide (2 ≤ cons1) ||
    (decide (3 ≤ s0.access_count + 1) &&
     decide (1000000000 < usub now s0.last_migration_time))))

/-- Written from the spec's words (§4.3, claim C7), for comparison with the
code's tick: θ ← min(0.1, θ·1.02) when r > 0.7, θ ← max(0.005, θ·0.98) when
r < 0.3, θ ← max(0.01, θ·0.99) otherwise. -/
def specThresholdUpdate (θ r : ℚ) : ℚ :=
  if 7 / 10 < r then min (1 / 10) (θ * (102 / 100))
  else if r < 3 / 10 then max (5 / 1000) (θ * (98 / 100))
  else max (1 / 100) (θ * (99 / 100))

/-- The C1 execution: build on three entries, insert key 5, look it up twice
in quick succession (making it hot and enqueued), migrate, insert (5, 99) —
which goes to the LIPP because 5 is hot — then heat up key 6 the same way
and migrate again.  The second migration's batch is {(6, 60)}; it does not
contain key 5. -/
def c1ops : List Op :=
  [.build [(1, 10), (2, 20), (3, 30)], .ins 5 50,
   .lookup 5 100, .lookup 5 200, .migrate, .ins 5 99, .ins 6 60,
   .lookup 6 300, .lookup 6 400, .migrate]

/-- The state reached by `c1ops` from a freshly constructed composite. -/
def c1final : HybridState := runOps (initState []) c1ops

/-- A reachable-shaped state for claim C3: key 5 lives in the DPGM and sits
in the migration queue, ready to be migrated. -/
def c3state : HybridState :=
  { dpgm := [(5, 50)], lipp := [], key_stats := [], key_access_count := [],
    migration_queue := [5], hot_keys := [], inserts := 0, lookups := 0,
    migrations := 0, migration_threshold := 1 / 20, adaptive_threshold := true }

/-- A state for claim C4: key 7 is pending in the migration queue (observed
hot, not yet migrated) and is not resident in the LIPP. -/
def c4state : HybridState :=
  { dpgm := [(7, 70)], lipp := [], key_stats := [], key_access_count := [],
    migration_queue := [7], hot_keys := [], inserts := 0, lookups := 0,
    migrations := 0, migration_threshold := 1 / 20, adaptive_threshold := true }

/-- A state for claim C5 at the cooldown boundary: key 5 is in the DPGM with
two recorded accesses long ago; the next lookup arrives exactly
1 000 000 000 ns after `last_migration_time`. -/
def c5state : HybridState :=
  { dpgm := [(5, 50)], lipp := [],
    key_stats := [(5, { access_count := 2, last_access_time := 0,
                        is_hot := false, consecutive_accesses := 1,
                        total_accesses := 2, last_migration_time := 0 })],
    key_access_count := [], migration_queue := [], hot_keys := [],
    inserts := 0, lookups := 0, migrations := 0,
    migration_threshold := 1 / 20, adaptive_threshold := true }

/-- A state for claim C6: key 3 is resident in the LIPP and has no
`key_stats_` record. -/
def c6state : HybridState :=
  { dpgm := [], lipp := [(3, 30)], key_stats := [], key_access_count := [],
    migration_queue := [], hot_keys := [], inserts := 0, lookups := 0,
    migrations := 0, migration_threshold := 1 / 20, adaptive_threshold := true }

/-- A state for claim C7's witness: an insert-heavy window (8 inserts,
2 lookups) recorded since the last tick. -/
def c7state : HybridState :=
  { dpgm := [], lipp := [], key_stats := [], key_access_count := [],
    migration_queue := [], hot_keys := [], inserts := 8, lookups := 2,
    migrations := 0, migration_threshold := 1 / 20, adaptive_threshold := true }

/-! ### Helper lemmas -/

theorem findStats_setStats (ks : List (Nat × KeyStats)) (k : Nat) (s : KeyStats) :
    findStats (setStats ks k s) k = s := by
  induction ks with
  | nil => simp [setStats, findStats]
  | cons hd tl ih =>
      obtain ⟨k0, s0⟩ := hd
      by_cases h : k0 = k
      · subst h; simp [setStats, findStats]
      · simp [setStats, findStats, h, ih]

theorem mem_setInsert (s : List Nat) (a k : Nat) :
    k ∈ setInsert s a ↔ k ∈ s ∨ k = a := by
  unfold setInsert
  split
  · rename_i h
    constructor
    · exact Or.inl
    · rintro (hk | rfl)
      · exact hk
      · simpa using h
  · simp

theorem mem_setInsertAll (l s : List Nat) (k : Nat) :
    k ∈ setInsertAll s l ↔ k ∈ s ∨ k ∈ l := by
  induction l generalizing s with
  | nil => simp [setInsertAll]
  | cons a tl ih =>
      simp only [setInsertAll, List.foldl] at *
      rw [ih, mem_setInsert]
      simp only [List.mem_cons]
      tauto

/-! ### Claim theorems -/

/-- C1 (code bug): read-your-writes fails.  In the `c1ops` execution,
`Insert (5, 99)` goes to the LIPP (key 5 is hot) and no later insert
touches key 5, yet after the next migration commits — a batch containing
only key 6 — `PointLookup 5` returns the stale value 50 rather than 99:
the migration's LIPP bulk load replaced the LIPP's contents instead of
merging into them, and key 5 was never evicted from the DPGM, so the lookup
falls back to the DPGM's stale entry. -/
theorem read_your_writes_violated_at_migration :
    c1final.lipp = [(6, 60)] ∧
    alookup c1final.dpgm 5 = 50 ∧
    (EqualityLookup c1final 5 500).1 = 50 ∧ (50 : Nat) ≠ 99 := by
  decide

/-- C2 (code bug): `RangeQuery` sums both tiers unconditionally.  After
`Build` on the single entry (1, 10) — which loads the DPGM with it and
pre-warms the LIPP with the same entry — the code returns 10 + 10 = 20 on
the range [1, 1], while the spec's deduplicating semantics
(`specRangeQuery`) gives the correct 10. -/
theorem range_query_double_counts :
    RangeQuery (Build (initState []) [(1, 10)]) 1 1 = 20 ∧
    specRangeQuery (Build (initState []) [(1, 10)]) 1 1 = 10 := by
  decide

/-- C3 (counterexample): a completed migration batch does not remove the
migrated key from the DPGM.  From `c3state`, `MigrateHotKeys` drains the
queue, commits key 5 to the LIPP and to `hot_keys_`, yet key 5 is still
found in the DPGM afterwards — the both-resident state persists after the
migration completes, contradicting the claimed eviction. -/
theorem migration_leaves_key_in_both_tiers :
    (MigrateHotKeys c3state).migration_queue = [] ∧
    (MigrateHotKeys c3state).hot_keys = [5] ∧
    alookup (MigrateHotKeys c3state).lipp 5 = 50 ∧
    alookup (MigrateHotKeys c3state).dpgm 5 = 50 ∧ (50 : Nat) ≠ NOT_FOUND := by
  decide

/-- C3 (amended): `MigrateHotKeys` never touches the DPGM — there is no
EVICT step, so a migration batch leaves the DPGM exactly as it was and a
migrated key stays resident in both tiers indefinitely. -/
theorem migrate_does_not_evict_dpgm (st : HybridState) :
    (MigrateHotKeys st).dpgm = st.dpgm := by
  unfold MigrateHotKeys
  split
  · rfl
  · dsimp only
    split <;> rfl

/-- C4 (counterexample): a key merely pending in the migration queue enters
`hot_keys_`.  In `c4state`, key 7 sits in the queue and is not resident in
the LIPP; after the background worker's `update_hot_keys` pass, 7 is in
`hot_keys_` while `lipp_` still does not hold it — contradicting both the
claimed LIT-residency of `HotKeySet` members and the claim that entries
enter only on a successful migration commit. -/
theorem pending_key_enters_hot_set :
    (update_hot_keys c4state).hot_keys = [7] ∧
    alookup (update_hot_keys c4state).lipp 7 = NOT_FOUND := by
  decide

/-- C4 (amended): every `update_hot_keys` pass rewrites `hot_keys_` to be
exactly the keys currently pending in the migration queue, so membership in
`hot_keys_` tracks queue membership — not LIT residency, and not a
completed migration commit. -/
theorem update_hot_keys_rewrites_hot_set (st : HybridState) (k : Nat) :
    k ∈ (update_hot_keys st).hot_keys ↔ k ∈ st.migration_queue := by
  unfold update_hot_keys
  dsimp only
  rw [mem_setInsertAll]
  simp

/-- The detector's stats update, written as a single record update: the
consecutive counter is bumped inside the 50 ms window and reset to 1
outside it; the two access counters are incremented and the access time is
stamped; the hot flag and the migration timestamp are untouched. -/
theorem updateStatsOnAccess_eq (s0 : KeyStats) (now : Nat) :
    updateStatsOnAccess s0 now =
      { s0 with
        consecutive_accesses :=
          if usub now s0.last_access_time < 50000000
          then s0.consecutive_accesses + 1 else 1,
        access_count := s0.access_count + 1,
        total_accesses := s0.total_accesses + 1,
        last_access_time := now } := by
  unfold updateStatsOnAccess
  dsimp only
  split <;> rfl

/-- C5 (counterexample): at exactly 1 s of elapsed cooldown the detector
does not fire.  In `c5state`, key 5 has `access_count` reaching 3 on this
lookup and `now − last_migration_time` is exactly 1 000 000 000 ns — the
claim ("at least 1 s") declares the key hot and enqueued, but the code's
strict comparison leaves it cold and the migration queue empty. -/
theorem cooldown_boundary_not_hot :
    (findStats (EqualityLookup c5state 5 1000000000).2.key_stats 5).access_count = 3 ∧
    usub 1000000000 (findStats c5state.key_stats 5).last_migration_time = 1000000000 ∧
    (findStats (EqualityLookup c5state 5 1000000000).2.key_stats 5).is_hot = false ∧
    (EqualityLookup c5state 5 1000000000).2.migration_queue = [] := by
  decide

/-- C5 (amended): for a lookup that misses the LIT and hits the DPI, the
detector behaves exactly as the claim states except that the migration
cooldown comparison is strict (`now − last_migration_ns > 1 s`, not `≥`):
`consecutive_accesses` and the hot verdict follow `specDetector`, the
access counter is incremented, the access time stamped, and a newly hot key
is appended to the migration queue only if not already present.  The
hypothesis `heq` records that the code tests `total_accesses` where the
claim says `access_count`; the two counters move in lockstep. -/
theorem detector_classification (st : HybridState) (k now : Nat)
    (hl : alookup st.lipp k = NOT_FOUND)
    (hd : alookup st.dpgm k ≠ NOT_FOUND)
    (heq : (findStats st.key_stats k).access_count
            = (findStats st.key_stats k).total_accesses) :
    (findStats (EqualityLookup st k now).2.key_stats k).consecutive_accesses
        = (specDetector (findStats st.key_stats k) now).1 ∧
    (findStats (EqualityLookup st k now).2.key_stats k).access_count
        = (findStats st.key_stats k).access_count + 1 ∧
    (findStats (EqualityLookup st k now).2.key_stats k).last_access_time = now ∧
    (findStats (EqualityLookup st k now).2.key_stats k).is_hot
        = ((findStats st.key_stats k).is_hot
            || (specDetector (findStats st.key_stats k) now).2) ∧
    (EqualityLookup st k now).2.migration_queue
        = (if (specDetector (findStats st.key_stats k) now).2
              && !(st.migration_queue.contains k)
           then st.migration_queue ++ [k] else st.migration_queue) := by
  have hs1 : (specDetector (findStats st.key_stats k) now).1
      = (updateStatsOnAccess (findStats st.key_stats k) now).consecutive_accesses := by
    rw [updateStatsOnAccess_eq]; rfl
  have hs2 : (specDetector (findStats st.key_stats k) now).2
      = hotCondition (updateStatsOnAccess (findStats st.key_stats k) now) now := by
    unfold specDetector hotCondition
    rw [updateStatsOnAccess_eq]
    dsimp only
    rw [heq]
  unfold EqualityLookup
  dsimp only
  rw [if_neg (by simp [hl]), if_pos hd]
  by_cases hc : hotCondition (updateStatsOnAccess (findStats st.key_stats k) now) now
  · rw [if_pos hc]
    dsimp only
    rw [findStats_setStats]
    refine ⟨?_, ?_, ?_, ?_, ?_⟩
    · rw [hs1]
    · simp [updateStatsOnAccess_eq]
    · simp [updateStatsOnAccess_eq]
    · rw [hs2, hc]; simp
    · rw [hs2, hc]
      by_cases hq : st.migration_queue.contains k <;> simp [hq]
  · rw [if_neg hc]
    dsimp only
    rw [findStats_setStats]
    rw [Bool.not_eq_true] at hc
    refine ⟨?_, ?_, ?_, ?_, ?_⟩
    · rw [hs1]
    · simp [updateStatsOnAccess_eq]
    · simp [updateStatsOnAccess_eq]
    · rw [hs2, hc]; simp [updateStatsOnAccess_eq]
    · rw [hs2, hc]; simp

/-- C5 (witness): the amended classification theorem applied to the
concrete boundary state `c5state`: the lookup resets the consecutive
counter to 1 and the key is not declared hot. -/
theorem detector_classification_witness :
    alookup c5state.lipp 5 = NOT_FOUND ∧
    alookup c5state.dpgm 5 ≠ NOT_FOUND ∧
    (findStats c5state.key_stats 5).access_count
      = (findStats c5state.key_stats 5).total_accesses ∧
    (findStats (EqualityLookup c5state 5 1000000000).2.key_stats 5).is_hot
      = ((findStats c5state.key_stats 5).is_hot
          || (specDetector (findStats c5state.key_stats 5) 1000000000).2) :=
  ⟨by decide, by decide, by decide,
   (detector_classification c5state 5 1000000000 (by decide) (by decide)
      (by decide)).2.2.2.1⟩

/-- C6 (counterexample): a lookup answered by the LIT does not record an
access in `key_stats_`, and neither does an insert.  In `c6state`, key 3 is
LIT-resident with no stats record; the lookup returns 30 but leaves
`key_stats_` empty, and `Insert (9, 90)` also leaves `key_stats_` empty —
contradicting the claimed detector coverage of LIT hits and inserts. -/
theorem lit_hit_and_insert_skip_key_stats :
    (EqualityLookup c6state 3 100).1 = 30 ∧
    (EqualityLookup c6state 3 100).2.key_stats = [] ∧
    (Insert c6state 9 90).key_stats = [] := by
  decide

/-- C6 (amended): only a lookup that misses the LIT and hits the DPI
records an access on `k` in `key_stats_`.  A LIT-answered lookup bumps only
the aggregate `workload_stats_.lookups`, an insert bumps only
`workload_stats_.inserts`, and both leave `key_stats_` untouched; a
DPI-answered lookup stamps the access time and increments the access
counter for `k`. -/
theorem detector_coverage_dpgm_only (st : HybridState) (k now v : Nat) :
    (alookup st.lipp k ≠ NOT_FOUND →
      (EqualityLookup st k now).2.key_stats = st.key_stats ∧
      (EqualityLookup st k now).2.lookups = st.lookups + 1) ∧
    ((Insert st k v).key_stats = st.key_stats ∧
     (Insert st k v).inserts = st.inserts + 1) ∧
    (alookup st.lipp k = NOT_FOUND → alookup st.dpgm k ≠ NOT_FOUND →
      (findStats (EqualityLookup st k now).2.key_stats k).last_access_time = now ∧
      (findStats (EqualityLookup st k now).2.key_stats k).access_count
        = (findStats st.key_stats k).access_count + 1) := by
  refine ⟨?_, ?_, ?_⟩
  · intro h
    unfold EqualityLookup
    rw [if_pos h]
    exact ⟨rfl, rfl⟩
  · unfold Insert
    split <;> exact ⟨rfl, rfl⟩
  · intro hl hd
    unfold EqualityLookup
    dsimp only
    rw [if_neg (by simp [hl]), if_pos hd]
    by_cases hc : hotCondition (updateStatsOnAccess (findStats st.key_stats k) now) now
    · rw [if_pos hc]
      dsimp only
      rw [findStats_setStats, updateStatsOnAccess_eq]
      exact ⟨rfl, rfl⟩
    · rw [if_neg hc]
      dsimp only
      rw [findStats_setStats, updateStatsOnAccess_eq]
      exact ⟨rfl, rfl⟩

/-- C6 (witness): the amended coverage theorem applied to `c6state`: the
LIT-answered lookup of key 3 leaves `key_stats_` unchanged and counts one
lookup; the insert of key 9 counts one insert. -/
theorem detector_coverage_dpgm_only_witness :
    alookup c6state.lipp 3 ≠ NOT_FOUND ∧
    (EqualityLookup c6state 3 100).2.key_stats = c6state.key_stats ∧
    (Insert c6state 3 90).inserts = c6state.inserts + 1 :=
  ⟨by decide,
   ((detector_coverage_dpgm_only c6state 3 100 90).1 (by decide)).1,
   (detector_coverage_dpgm_only c6state 3 100 90).2.1.2⟩

theorem insertByKey_length (p : Nat × Nat) (l : List (Nat × Nat)) :
    (insertByKey p l).length = l.length + 1 := by
  induction l with
  | nil => rfl
  | cons q rest ih =>
      unfold insertByKey
      split_ifs <;> simp [ih]

theorem sortByKey_length (l : List (Nat × Nat)) :
    (sortByKey l).length = l.length := by
  unfold sortByKey
  induction l with
  | nil => rfl
  | cons p rest ih => simp [List.foldr, insertByKey_length, ih]

theorem eqlookup_threshold (st : HybridState) (k now : Nat) :
    (EqualityLookup st k now).2.migration_threshold = st.migration_threshold := by
  unfold EqualityLookup
  dsimp only
  split_ifs <;> rfl

theorem insert_threshold (st : HybridState) (k v : Nat) :
    (Insert st k v).migration_threshold = st.migration_threshold := by
  unfold Insert
  split_ifs <;> rfl

theorem build_threshold (st : HybridState) (data : List (Nat × Nat)) :
    (Build st data).migration_threshold = st.migration_threshold := by
  unfold Build
  dsimp only
  split_ifs <;> rfl

theorem migrate_threshold (st : HybridState) :
    (MigrateHotKeys st).migration_threshold = st.migration_threshold := by
  unfold MigrateHotKeys
  dsimp only
  split_ifs <;> rfl

theorem updateHot_threshold (st : HybridState) :
    (update_hot_keys st).migration_threshold = st.migration_threshold := rfl

/-- One controller tick keeps the threshold inside [1/200, 3/10] when it
starts there: each branch is clamped by its own min/max bound. -/
theorem adjust_threshold_bounds (st : HybridState) (now : Nat)
    (h1 : 1 / 200 ≤ st.migration_threshold) (h2 : st.migration_threshold ≤ 3 / 10) :
    1 / 200 ≤ (adjust_migration_threshold st now).migration_threshold ∧
      (adjust_migration_threshold st now).migration_threshold ≤ 3 / 10 := by
  unfold adjust_migration_threshold
  split
  · exact ⟨h1, h2⟩
  · split
    · exact ⟨h1, h2⟩
    · dsimp only
      split_ifs with hr1 hr2
      · constructor
        · exact le_min (by norm_num) (by nlinarith)
        · exact le_trans (min_le_left _ _) (by norm_num)
      · constructor
        · exact le_trans (by norm_num) (le_max_left _ _)
        · exact max_le (by norm_num) (by nlinarith)
      · constructor
        · exact le_trans (by norm_num) (le_max_left _ _)
        · exact max_le (by norm_num) (by nlinarith)

/-- C7: the adaptive threshold update rule.  On a tick with at least one
recorded operation and `r = inserts/(inserts+lookups)`, the new threshold
is exactly `specThresholdUpdate θ r` — `min(0.1, θ·1.02)` when `r > 0.7`,
`max(0.005, θ·0.98)` when `r < 0.3`, `max(0.01, θ·0.99)` otherwise — and
the workload counters are reset to zero; a tick with zero recorded
operations leaves the whole state unchanged. -/
theorem threshold_update_rule (st : HybridState) (now : Nat)
    (ha : st.adaptive_threshold = true) :
    (st.inserts + st.lookups = 0 → adjust_migration_threshold st now = st) ∧
    (0 < st.inserts + st.lookups →
      (adjust_migration_threshold st now).migration_threshold =
        specThresholdUpdate st.migration_threshold
          ((st.inserts : ℚ) / ((st.inserts : ℚ) + (st.lookups : ℚ))) ∧
      (adjust_migration_threshold st now).inserts = 0 ∧
      (adjust_migration_threshold st now).lookups = 0 ∧
      (adjust_migration_threshold st now).migrations = 0) := by
  constructor
  · intro h0
    unfold adjust_migration_threshold
    rw [ha]
    rw [if_neg (by simp), if_pos h0]
  · intro hpos
    unfold adjust_migration_threshold
    rw [ha]
    rw [if_neg (by simp), if_neg (by omega)]
    dsimp only
    refine ⟨?_, rfl, rfl, rfl⟩
    unfold specThresholdUpdate
    have hcast : ((st.inserts + st.lookups : Nat) : ℚ)
        = (st.inserts : ℚ) + (st.lookups : ℚ) := by push_cast; ring
    rw [hcast]

/-- C7 (witness): the update rule applied to the insert-heavy window of
`c7state` (r = 0.8). -/
theorem threshold_update_rule_witness :
    c7state.adaptive_threshold = true ∧
    0 < c7state.inserts + c7state.lookups ∧
    ((adjust_migration_threshold c7state 0).migration_threshold =
      specThresholdUpdate c7state.migration_threshold
        ((c7state.inserts : ℚ) / ((c7state.inserts : ℚ) + (c7state.lookups : ℚ))) ∧
     (adjust_migration_threshold c7state 0).inserts = 0 ∧
     (adjust_migration_threshold c7state 0).lookups = 0 ∧
     (adjust_migration_threshold c7state 0).migrations = 0) :=
  ⟨rfl, by decide, (threshold_update_rule c7state 0 rfl).2 (by decide)⟩

/-- C8 (counterexample): the constructor does not clamp the initial
threshold.  With parameter vector [40] the threshold starts at 0.4, outside
the claimed interval [0.005, 0.3], already before any controller tick. -/
theorem threshold_init_out_of_bounds :
    ¬ ((runOps (initState [40]) []).migration_threshold ≤ 3 / 10) := by
  show ¬ ((((40 : Int) : ℚ)) / 100 ≤ 3 / 10)
  norm_num

/-- C8 (amended): the interval [0.005, 0.3] is an invariant of every
operation sequence — lookups, inserts, builds, migrations, hot-set updates
and controller ticks — provided the *initial* threshold lies inside it
(which the constructor guarantees only for an empty parameter vector or
`params[0]/100 ∈ [0.005, 0.3]`, not for every parameter vector). -/
theorem threshold_bounds_invariant (st : HybridState) (ops : List Op)
    (h : 1 / 200 ≤ st.migration_threshold ∧ st.migration_threshold ≤ 3 / 10) :
    1 / 200 ≤ (runOps st ops).migration_threshold ∧
      (runOps st ops).migration_threshold ≤ 3 / 10 := by
  induction ops generalizing st with
  | nil => exact h
  | cons o rest ih =>
      have hstep : 1 / 200 ≤ (applyOp st o).migration_threshold ∧
          (applyOp st o).migration_threshold ≤ 3 / 10 := by
        cases o with
        | lookup k now =>
            dsimp only [applyOp]
            rw [eqlookup_threshold]
            exact h
        | ins k v =>
            dsimp only [applyOp]
            rw [insert_threshold]
            exact h
        | build data =>
            dsimp only [applyOp]
            rw [build_threshold]
            exact h
        | migrate =>
            dsimp only [applyOp]
            rw [migrate_threshold]
            exact h
        | updateHot =>
            dsimp only [applyOp]
            rw [updateHot_threshold]
            exact h
        | tick now => exact adjust_threshold_bounds st now h.1 h.2
      exact ih _ hstep

/-- C8 (witness): a default-constructed composite (θ = 0.05) keeps its
threshold inside [0.005, 0.3] across a controller tick. -/
theorem threshold_bounds_invariant_witness :
    (1 / 200 ≤ (initState []).migration_threshold ∧
      (initState []).migration_threshold ≤ 3 / 10) ∧
    (1 / 200 ≤ (runOps (initState []) [Op.tick 0]).migration_threshold ∧
      (runOps (initState []) [Op.tick 0]).migration_threshold ≤ 3 / 10) := by
  have h : 1 / 200 ≤ (initState []).migration_threshold ∧
      (initState []).migration_threshold ≤ 3 / 10 := by
    constructor
    · show (1 : ℚ) / 200 ≤ 5 / 100
      norm_num
    · show (5 : ℚ) / 100 ≤ 3 / 10
      norm_num
  exact ⟨h, threshold_bounds_invariant (initState []) [Op.tick 0] h⟩

/-- C9 (counterexample): with an AVX search kernel, unique keys, and
`multithread = false`, `applicable` returns true — its body never consults
the search kernel, so it does not return false for AVX variants. -/
theorem applicable_ignores_avx :
    applicable true true true true false ("wl") = true := rfl

/-- C9 (amended): `applicable` computes `unique && !multithread`,
independently of the search kernel and of the `range_query`, `insert` and
workload-name arguments.  It therefore does return false whenever
`multithread` is true (that half of the claim holds), but not when the
kernel is an AVX variant. -/
theorem applicable_eq_unique_and_not_multithread
    (searchIsAVX unique range_query insert multithread : Bool) (w : String) :
    applicable searchIsAVX unique range_query insert multithread w
      = (unique && !multithread) := rfl

/-- C10: `size` returns `dpgm_.size() + lipp_.size()`, so immediately after
`Build` on `n > 0` distinct entries it returns `n + min n 100000` — the
full DPGM load plus the LIPP pre-warm sample, counting both-resident keys
twice — rather than the number of distinct live keys `n`. -/
theorem size_after_build (st : HybridState) (data : List (Nat × Nat))
    (h : 0 < data.length) (hnd : (data.map Prod.fst).Nodup) :
    size (Build st data) = data.length + min data.length 100000 := by
  unfold Build size
  rw [if_neg (by omega)]
  dsimp only
  rw [sortByKey_length, List.length_take, List.length_drop]
  omega

/-- C10 (witness): after building on the single entry (1, 10), `size`
reports 2 = 1 + min 1 100000, double counting the one live key. -/
theorem size_after_build_witness :
    0 < ([(1, 10)] : List (Nat × Nat)).length ∧
    (([(1, 10)] : List (Nat × Nat)).map Prod.fst).Nodup ∧
    size (Build (initState []) [(1, 10)]) =
      ([(1, 10)] : List (Nat × Nat)).length +
        min ([(1, 10)] : List (Nat × Nat)).length 100000 :=
  ⟨by decide, by decide,
   size_after_build (initState []) [(1, 10)] (by decide) (by decide)⟩

end HybridPGMLIPP
